import Mathlib

/-!
Shallow embedding of the aadenman paper-trading core: the execution engine
(`PaperExecutor`), the scheduler gating (`AgentRunner.onTick`), decision
parsing (`LLMAgent.parseDecision`), order sizing (`AgentRunner.execute`) and
the price oracle default (`PriceManager.getPrice`).  JavaScript numbers are
modelled as exact rationals; the one place where IEEE-754 non-finite values
matter (division by a zero price when sizing an order) is modelled explicitly
by `FVal`/`jsDiv`.  Fallible engine paths (the `throw`s inside
`PaperExecutor.buy`) are modelled with `Except`, and `PaperExecutor.execute`
catches them exactly as the try/catch of the source does.
-/

namespace Aadenman

/-- Values of `Position.side` in `packages/execution/src/types.ts`:
LONG, SHORT or NONE. -/
inductive Side
  | LONG
  | SHORT
  | NONE
deriving DecidableEq, Repr

/-- Values of `ActionType` in `types.ts`: BUY, SELL or HOLD. -/
inductive ActionType
  | BUY
  | SELL
  | HOLD
deriving DecidableEq, Repr

/-- Record `Position` from `types.ts`: `qty` is signed (the engine stores a
SHORT quantity as a negative number), `side` is authoritative. -/
structure Position where
  symbol : String
  qty : ℚ
  avgPrice : ℚ
  side : Side
deriving DecidableEq, Repr

/-- Snapshot record `ExecutionContext` from `types.ts`. -/
structure ExecutionContext where
  symbol : String
  currentPrice : ℚ
  position : Position
  cash : ℚ
  equity : ℚ
deriving DecidableEq, Repr

/-- Record `ExecutionResult` from `types.ts`; the optional `pnl`/`error` fields are
`Option`s (`none` models an absent field). -/
structure ExecutionResult where
  success : Bool
  action : ActionType
  qty : ℚ
  price : ℚ
  cash : ℚ
  position : Position
  equity : ℚ
  pnl : Option ℚ
  error : Option String
deriving DecidableEq, Repr

/-- Record `PaperExecutorConfig` from `paper-executor.ts`: fractional slippage and
taker fee (the source defaults, 0.001 and 0.0005, are irrelevant here because
every use passes the fields explicitly). -/
structure PaperExecutorConfig where
  slippage : ℚ
  takerFee : ℚ
deriving DecidableEq, Repr

namespace PaperExecutor

/-- Unrealized P&L of a position (`PaperExecutor.calculatePositionValue`),
marked at `currentPrice`. -/
def calculatePositionValue (position : Position) (currentPrice : ℚ) : ℚ :=
  match position.side with
  | Side.NONE => 0
  | Side.LONG => (currentPrice - position.avgPrice) * |position.qty|
  | Side.SHORT => (position.avgPrice - currentPrice) * |position.qty|

/-- Slippage adjustment (`PaperExecutor.applySlippage`): BUY pays more, SELL
receives less. -/
def applySlippage (cfg : PaperExecutorConfig) (price : ℚ) (action : ActionType) : ℚ :=
  match action with
  | ActionType.BUY => price * (1 + cfg.slippage)
  | ActionType.SELL => price * (1 - cfg.slippage)
  | ActionType.HOLD => price

/-- Engine BUY leg, `PaperExecutor.buy` (agent-runner.ts lines 337-446).  The
source throws
on the two insufficient-cash checks; those become `Except.error`.  Note the
full-close branch of the source computes `totalCloseCost = closeCost +
closeFee` and never uses it; we keep the two quantities it is built from. -/
def buy (cfg : PaperExecutorConfig) (qty price : ℚ) (context : ExecutionContext) :
    Except String ExecutionResult :=
  -- NONE or LONG -> adding to long
  if context.position.side = Side.NONE ∨ context.position.side = Side.LONG then
    let cost := qty * price
    let fee := cost * cfg.takerFee
    let totalCost := cost + fee
    if totalCost > context.cash then
      Except.error "Insufficient cash"
    else
      let totalQty := context.position.qty + qty
      let avgPrice :=
        if context.position.side = Side.NONE then price
        else (context.position.avgPrice * context.position.qty + price * qty) / totalQty
      let newPosition : Position :=
        { symbol := context.symbol, qty := totalQty, avgPrice := avgPrice, side := Side.LONG }
      let newCash := context.cash - totalCost
      let newEquity := newCash + calculatePositionValue newPosition context.currentPrice
      Except.ok
        { success := true, action := ActionType.BUY, qty := qty, price := price,
          cash := newCash, position := newPosition, equity := newEquity,
          pnl := some 0, error := none }
  else
    -- SHORT -> closing or flipping
    let shortQty := |context.position.qty|
    if qty ≥ shortQty then
      -- fully close short
      let closeCost := shortQty * price
      let closeFee := closeCost * cfg.takerFee
      let pnl := (context.position.avgPrice - price) * shortQty - closeFee
      let remainingQty := qty - shortQty
      let newCash := context.cash + pnl
      if remainingQty > 0 then
        -- remainder opens a LONG
        let longCost := remainingQty * price
        let longFee := longCost * cfg.takerFee
        let totalLongCost := longCost + longFee
        if totalLongCost > newCash then
          Except.error "Insufficient cash for LONG"
        else
          let newCash2 := newCash - totalLongCost
          let newPosition : Position :=
            { symbol := context.symbol, qty := remainingQty, avgPrice := price,
              side := Side.LONG }
          let newEquity := newCash2 + calculatePositionValue newPosition context.currentPrice
          Except.ok
            { success := true, action := ActionType.BUY, qty := qty, price := price,
              cash := newCash2, position := newPosition, equity := newEquity,
              pnl := some pnl, error := none }
      else
        let newPosition : Position :=
          { symbol := context.symbol, qty := 0, avgPrice := 0, side := Side.NONE }
        let newEquity := newCash + calculatePositionValue newPosition context.currentPrice
        Except.ok
          { success := true, action := ActionType.BUY, qty := qty, price := price,
            cash := newCash, position := newPosition, equity := newEquity,
            pnl := some pnl, error := none }
    else
      -- partially close short
      let cost := qty * price
      let fee := cost * cfg.takerFee
      let pnl := (context.position.avgPrice - price) * qty - fee
      let newPosition : Position :=
        { symbol := context.symbol, qty := context.position.qty + qty,
          avgPrice := context.position.avgPrice, side := Side.SHORT }
      let newCash := context.cash + pnl
      let newEquity := newCash + calculatePositionValue newPosition context.currentPrice
      Except.ok
        { success := true, action := ActionType.BUY, qty := qty, price := price,
          cash := newCash, position := newPosition, equity := newEquity,
          pnl := some pnl, error := none }

/-- Engine SELL leg, `PaperExecutor.sell` (agent-runner.ts lines 448-550). -/
def sell (cfg : PaperExecutorConfig) (qty price : ℚ) (context : ExecutionContext) :
    Except String ExecutionResult :=
  -- NONE or SHORT -> adding to short
  if context.position.side = Side.NONE ∨ context.position.side = Side.SHORT then
    let proceeds := qty * price
    let fee := proceeds * cfg.takerFee
    let netProceeds := proceeds - fee
    let totalQty := |context.position.qty| + qty
    let avgPrice :=
      if context.position.side = Side.NONE then price
      else (context.position.avgPrice * |context.position.qty| + price * qty) / totalQty
    let newPosition : Position :=
      { symbol := context.symbol, qty := -totalQty, avgPrice := avgPrice, side := Side.SHORT }
    let newCash := context.cash + netProceeds
    let newEquity := newCash + calculatePositionValue newPosition context.currentPrice
    Except.ok
      { success := true, action := ActionType.SELL, qty := qty, price := price,
        cash := newCash, position := newPosition, equity := newEquity,
        pnl := some 0, error := none }
  else
    -- LONG -> closing or flipping
    let longQty := context.position.qty
    if qty ≥ longQty then
      -- fully close long
      let closeProceeds := longQty * price
      let closeFee := closeProceeds * cfg.takerFee
      let netCloseProceeds := closeProceeds - closeFee
      let pnl := (price - context.position.avgPrice) * longQty - closeFee
      let remainingQty := qty - longQty
      let newCash := context.cash + netCloseProceeds
      if remainingQty > 0 then
        -- remainder opens a SHORT
        let shortProceeds := remainingQty * price
        let shortFee := shortProceeds * cfg.takerFee
        let netShortProceeds := shortProceeds - shortFee
        let newCash2 := newCash + netShortProceeds
        let newPosition : Position :=
          { symbol := context.symbol, qty := -remainingQty, avgPrice := price,
            side := Side.SHORT }
        let newEquity := newCash2 + calculatePositionValue newPosition context.currentPrice
        Except.ok
          { success := true, action := ActionType.SELL, qty := qty, price := price,
            cash := newCash2, position := newPosition, equity := newEquity,
            pnl := some pnl, error := none }
      else
        let newPosition : Position :=
          { symbol := context.symbol, qty := 0, avgPrice := 0, side := Side.NONE }
        let newEquity := newCash + calculatePositionValue newPosition context.currentPrice
        Except.ok
          { success := true, action := ActionType.SELL, qty := qty, price := price,
            cash := newCash, position := newPosition, equity := newEquity,
            pnl := some pnl, error := none }
    else
      -- partially close long
      let proceeds := qty * price
      let fee := proceeds * cfg.takerFee
      let netProceeds := proceeds - fee
      let pnl := (price - context.position.avgPrice) * qty - fee
      let newPosition : Position :=
        { symbol := context.symbol, qty := context.position.qty - qty,
          avgPrice := context.position.avgPrice, side := Side.LONG }
      let newCash := context.cash + netProceeds
      let newEquity := newCash + calculatePositionValue newPosition context.currentPrice
      Except.ok
        { success := true, action := ActionType.SELL, qty := qty, price := price,
          cash := newCash, position := newPosition, equity := newEquity,
          pnl := some pnl, error := none }

/-- Engine entry point, `PaperExecutor.execute` (agent-runner.ts lines
300-335): HOLD echoes the
context with `qty = 0`; BUY/SELL run at the slippage-adjusted price, and a
thrown insufficient-cash error is caught and turned into a failed result
carrying the untouched pre-call `cash`/`position`/`equity`. -/
def execute (cfg : PaperExecutorConfig) (action : ActionType) (qty : ℚ)
    (context : ExecutionContext) : ExecutionResult :=
  match action with
  | ActionType.HOLD =>
      { success := true, action := ActionType.HOLD, qty := 0, price := context.currentPrice,
        cash := context.cash, position := context.position, equity := context.equity,
        pnl := none, error := none }
  | ActionType.BUY =>
      match buy cfg qty (applySlippage cfg context.currentPrice ActionType.BUY) context with
      | Except.ok r => r
      | Except.error e =>
          { success := false, action := ActionType.BUY, qty := 0, price := context.currentPrice,
            cash := context.cash, position := context.position, equity := context.equity,
            pnl := none, error := some e }
  | ActionType.SELL =>
      match sell cfg qty (applySlippage cfg context.currentPrice ActionType.SELL) context with
      | Except.ok r => r
      | Except.error e =>
          { success := false, action := ActionType.SELL, qty := 0, price := context.currentPrice,
            cash := context.cash, position := context.position, equity := context.equity,
            pnl := none, error := some e }

end PaperExecutor

/-- Record `AgentDecision` from `packages/agent/src/types.ts`. -/
structure AgentDecision where
  action : ActionType
  qty : ℚ
  reason : String
deriving DecidableEq, Repr

/-- The `qty` field of the JSON object the Decision Provider returned:
either a JavaScript number or some other JSON value (string, object, ...,
which the typeof-number test of the source rejects). -/
inductive JsonQty
  | num (q : ℚ)
  | nonNumber
deriving DecidableEq, Repr

/-- The JSON object extracted from the response text of the Decision Provider,
after `JSON.parse` succeeded: an optional `action` string, a `qty` value and
an optional `reason` string. -/
structure RawDecision where
  action : Option String
  qty : JsonQty
  reason : Option String
deriving DecidableEq, Repr

namespace LLMAgent

/-- Membership of the action string in the BUY/SELL/HOLD list, as a partial
map into `ActionType`; `none` is the Invalid-action throw. -/
def actionOfString (a : String) : Option ActionType :=
  if a = "BUY" then some ActionType.BUY
  else if a = "SELL" then some ActionType.SELL
  else if a = "HOLD" then some ActionType.HOLD
  else none

/-- Defaulting of the reason field: a missing or empty (falsy) string becomes
the No-reason-provided text. -/
def reasonOrDefault (r : Option String) : String :=
  match r with
  | some s => if s = "" then "No reason provided" else s
  | none => "No reason provided"

/-- Decision parsing, `LLMAgent.parseDecision` (agent-runner.ts lines
240-267).  The argument
is the JSON object extracted from the response text; `none` models a text
with no parseable JSON object (the No-JSON-found / JSON-parse throw path).
A missing or invalid `action` throws and is caught as a HOLD decision with
qty 0; otherwise a non-numeric `qty`
becomes 0 and the numeric `qty` is clamped into `[0, 1]` by
`Math.max(0, Math.min(1, qty))`, with the original action kept. -/
def parseDecision (raw : Option RawDecision) : AgentDecision :=
  match raw with
  | none => { action := ActionType.HOLD, qty := 0, reason := "Failed to parse decision" }
  | some parsed =>
    match parsed.action.bind actionOfString with
    | none => { action := ActionType.HOLD, qty := 0, reason := "Failed to parse decision" }
    | some act =>
      let qty := match parsed.qty with
        | JsonQty.num q => q
        | JsonQty.nonNumber => 0
      let clampedQty := max 0 (min 1 qty)
      { action := act, qty := clampedQty, reason := reasonOrDefault parsed.reason }

end LLMAgent

/-- A JavaScript number that may be non-finite: the values IEEE-754 division
can produce from finite operands. -/
inductive FVal
  | fin (q : ℚ)
  | posInf
  | negInf
  | nan
deriving DecidableEq, Repr

/-- IEEE-754 division of two finite doubles (as in JavaScript `/`), exact
arithmetic aside: dividing a nonzero finite number by (positive) zero gives a
signed infinity, `0 / 0` gives NaN. -/
def jsDiv (a b : ℚ) : FVal :=
  if b = 0 then
    if a > 0 then FVal.posInf
    else if a < 0 then FVal.negInf
    else FVal.nan
  else FVal.fin (a / b)

namespace AgentRunner

/-- Order sizing from `AgentRunner.execute` (agent-runner.ts lines 120-123):
zero for HOLD, otherwise `decision.qty` times `this.equity` divided by
`currentPrice`,
with JavaScript division semantics. -/
def absoluteQty (decision : AgentDecision) (equity currentPrice : ℚ) : FVal :=
  if decision.action = ActionType.HOLD then FVal.fin 0
  else jsDiv (decision.qty * equity) currentPrice

/-- The `(action, qty)` argument pair of the call
`this.executor.execute(decision.action, absoluteQty, context)` on
agent-runner.ts line 125: the sized quantity is passed through unchanged. -/
def runnerOrderArgs (decision : AgentDecision) (equity currentPrice : ℚ) :
    ActionType × FVal :=
  (decision.action, absoluteQty decision equity currentPrice)

/-- The Scheduler state relevant to tick gating: the account triple owned by
the runner plus the `executing` flag and `lastExecutionTime` timestamp
(agent-runner.ts lines 26-31). -/
structure RunnerState where
  cash : ℚ
  position : Position
  equity : ℚ
  executing : Bool
  lastExecutionTime : ℤ
deriving DecidableEq, Repr

/-- Delivery of one tick to `AgentRunner.onTick` (agent-runner.ts lines
74-96), observed at the moment the handler reaches its `await`: if
`executing` is set, or `now - lastExecutionTime < cooldownMs`, the tick is
dropped and the state is untouched; otherwise the handler sets
`executing := true` and `lastExecutionTime := now` and starts one execution
cycle.  The returned `Bool` is `true` exactly when a cycle was started (a
decision will be requested). -/
def deliverTick (cooldownMs now : ℤ) (s : RunnerState) : RunnerState × Bool :=
  if s.executing then (s, false)
  else if now - s.lastExecutionTime < cooldownMs then (s, false)
  else ({ s with executing := true, lastExecutionTime := now }, true)

/-- Completion of the in-flight cycle (agent-runner.ts lines 89-95 and
127-141): on success the cash/position/equity of the result are committed, on
failure the account is untouched; the `finally` clears `executing` in both
cases. -/
def completeCycle (r : ExecutionResult) (s : RunnerState) : RunnerState :=
  if r.success then
    { s with cash := r.cash, position := r.position, equity := r.equity, executing := false }
  else { s with executing := false }

end AgentRunner

namespace PriceManager

/-- Price lookup, `PriceManager.getPrice` (price-manager.ts): the stored price
map, modelled as an association list, with default 0 when the symbol is
absent. -/
def getPrice (prices : List (String × ℚ)) (symbol : String) : ℚ :=
  match prices.lookup symbol with
  | some p => p
  | none => 0

end PriceManager

namespace PaperExecutor

/-- A sequence of BUY fills: each `(p, q)` runs `PaperExecutor.buy` with fill
price `p` and quantity `q`, committing the resulting cash/position/equity back
into the context as `AgentRunner.execute` does on success (agent-runner.ts
lines 127-130); the first engine failure aborts the sequence. -/
def runBuys (cfg : PaperExecutorConfig) (ctx : ExecutionContext) :
    List (ℚ × ℚ) → Except String ExecutionContext
  | [] => Except.ok ctx
  | (p, q) :: rest =>
    match buy cfg q p ctx with
    | Except.error e => Except.error e
    | Except.ok r =>
        runBuys cfg
          { ctx with cash := r.cash, position := r.position, equity := r.equity } rest

end PaperExecutor

/-- The Position invariant from spec §3: `side = NONE` forces a zeroed
position, an open side forces a nonzero magnitude (positive `qty` for LONG,
nonzero magnitude for SHORT). -/
def PosInvariant (p : Position) : Prop :=
  (p.side = Side.NONE → p.qty = 0 ∧ p.avgPrice = 0) ∧
  (p.side = Side.LONG → 0 < p.qty) ∧
  (p.side = Side.SHORT → 0 < |p.qty|)

instance (p : Position) : Decidable (PosInvariant p) := by
  unfold PosInvariant
  infer_instance

end Aadenman

namespace Aadenman

/-- Every `Except.ok` result of `PaperExecutor.buy` is marked successful. -/
theorem buy_ok_success {cfg : PaperExecutorConfig} {qty price : ℚ}
    {ctx : ExecutionContext} {r : ExecutionResult}
    (h : PaperExecutor.buy cfg qty price ctx = Except.ok r) : r.success = true := by
  simp only [PaperExecutor.buy] at h
  split_ifs at h <;> cases h <;> rfl

/-- Every `Except.ok` result of `PaperExecutor.sell` is marked successful. -/
theorem sell_ok_success {cfg : PaperExecutorConfig} {qty price : ℚ}
    {ctx : ExecutionContext} {r : ExecutionResult}
    (h : PaperExecutor.sell cfg qty price ctx = Except.ok r) : r.success = true := by
  simp only [PaperExecutor.sell] at h
  split_ifs at h <;> cases h <;> rfl

/-- C1.  Claimed: with slippage = 0 and takerFee = 0, SELL q from NONE at
price p and then BUY q at the same price p ends with position NONE and the
starting cash (value conservation).  The code violates this: at p = 100,
q = 1, starting cash 0, the round trip ends with position NONE but cash 100.
Opening the short credits the full proceeds (q * p) while closing it only
adds the margin-style P&L, never debiting the buy-back cost (the closing
branch of `PaperExecutor.buy` computes that cost as `totalCloseCost` and then
never uses it), so the short round trip creates q * p of cash from nothing. -/
theorem short_round_trip_inflates_cash :
    let cfg : PaperExecutorConfig := { slippage := 0, takerFee := 0 }
    let ctx0 : ExecutionContext :=
      { symbol := "S", currentPrice := 100, position := ⟨"S", 0, 0, Side.NONE⟩,
        cash := 0, equity := 0 }
    let r1 := PaperExecutor.execute cfg ActionType.SELL 1 ctx0
    let ctx1 := { ctx0 with cash := r1.cash, position := r1.position, equity := r1.equity }
    let r2 := PaperExecutor.execute cfg ActionType.BUY 1 ctx1
    r1.success = true ∧ r1.position.side = Side.SHORT ∧
      r2.success = true ∧ r2.position.side = Side.NONE ∧
      r2.cash = 100 ∧ r2.cash ≠ ctx0.cash := by
  norm_num +decide [PaperExecutor.execute, PaperExecutor.sell, PaperExecutor.buy,
    PaperExecutor.applySlippage, PaperExecutor.calculatePositionValue]

/-- C10.  Cash non-negativity is not an invariant: from cash 100 ≥ 0 with an
open SHORT of magnitude 10 at average price 100, a BUY of qty 5 at current
price 200 (slippage 0, fee 0) partially closes the short, succeeds, and
returns cash 100 + (100 - 200) * 5 = -400 < 0 — the partial-close branch
applies cash += realizedPnL with no cash check. -/
theorem partial_short_close_can_go_negative :
    ∃ (cfg : PaperExecutorConfig) (ctx : ExecutionContext) (qty : ℚ),
      0 ≤ ctx.cash ∧ ctx.position.side = Side.SHORT ∧ qty < |ctx.position.qty| ∧
      (PaperExecutor.execute cfg ActionType.BUY qty ctx).success = true ∧
      (PaperExecutor.execute cfg ActionType.BUY qty ctx).position.side = Side.SHORT ∧
      (PaperExecutor.execute cfg ActionType.BUY qty ctx).cash < 0 := by
  refine ⟨⟨0, 0⟩, ⟨"S", 200, ⟨"S", -10, 100, Side.SHORT⟩, 100, 100⟩, 5, ?_⟩
  norm_num +decide [PaperExecutor.execute, PaperExecutor.buy,
    PaperExecutor.applySlippage, PaperExecutor.calculatePositionValue]

/-- C2, counterexample.  Claimed: a decision with a valid BUY action but qty
outside [0, 1] is converted to HOLD with qty 0.  The code instead clamps: a
parsed response with action BUY and qty 2 yields the decision (BUY, qty 1),
not (HOLD, qty 0). -/
theorem out_of_range_qty_is_clamped_not_held :
    LLMAgent.parseDecision
        (some { action := some "BUY", qty := JsonQty.num 2, reason := some "r" }) =
      { action := ActionType.BUY, qty := 1, reason := "r" } ∧
    ActionType.BUY ≠ ActionType.HOLD := by
  constructor
  · norm_num +decide [LLMAgent.parseDecision, LLMAgent.actionOfString,
      LLMAgent.reasonOrDefault, Option.bind]
  · decide

/-- C3, counterexample.  Claimed: a SELL fully closing a LONG updates cash by
the realized P&L, (fillPrice - avgPrice) * longQty - fee.  At slippage 0 and
fee 0, from LONG qty 1 at avgPrice 100 with cash 0 and current price 110, the
code returns cash 110 (the full net close proceeds), not 0 + (110 - 100) * 1
= 10. -/
theorem sell_full_close_cash_is_not_pnl :
    let cfg : PaperExecutorConfig := { slippage := 0, takerFee := 0 }
    let ctx : ExecutionContext :=
      { symbol := "S", currentPrice := 110, position := ⟨"S", 1, 100, Side.LONG⟩,
        cash := 0, equity := 10 }
    let r := PaperExecutor.execute cfg ActionType.SELL 1 ctx
    r.success = true ∧ r.position.side = Side.NONE ∧ r.cash = 110 ∧
      r.cash ≠ ctx.cash + ((110 - 100) * 1 - 0) := by
  norm_num +decide [PaperExecutor.execute, PaperExecutor.sell,
    PaperExecutor.applySlippage, PaperExecutor.calculatePositionValue]

/-- C4, counterexample.  Claimed: the position invariant is preserved for
every qty ≥ 0, including qty = 0.  A BUY of qty 0 from a NONE position with
cash 100 succeeds and returns the position (side LONG, qty 0, avgPrice 100),
which violates side = LONG → qty > 0. -/
theorem zero_qty_buy_breaks_invariant :
    let ctx : ExecutionContext :=
      { symbol := "S", currentPrice := 100, position := ⟨"S", 0, 0, Side.NONE⟩,
        cash := 100, equity := 100 }
    let r := PaperExecutor.execute ⟨0, 0⟩ ActionType.BUY 0 ctx
    PosInvariant ctx.position ∧ (0 : ℚ) ≤ 0 ∧ r.success = true ∧
      r.position.side = Side.LONG ∧ r.position.qty = 0 ∧ ¬ PosInvariant r.position := by
  norm_num +decide [PaperExecutor.execute, PaperExecutor.buy,
    PaperExecutor.applySlippage, PaperExecutor.calculatePositionValue, PosInvariant]


/-- C5.  Whenever `PaperExecutor.execute` on a BUY reports failure — the cash
check in the accumulate branch or in the flip-remainder leg — the returned
cash, position and equity are exactly the pre-call context values: the engine
throws before building any result, and the catch in `execute` echoes the
untouched context, so a flip never leaks the post-close intermediate state. -/
theorem buy_failure_leaves_state_unchanged (cfg : PaperExecutorConfig) (qty : ℚ)
    (ctx : ExecutionContext)
    (hfail : (PaperExecutor.execute cfg ActionType.BUY qty ctx).success = false) :
    (PaperExecutor.execute cfg ActionType.BUY qty ctx).cash = ctx.cash ∧
    (PaperExecutor.execute cfg ActionType.BUY qty ctx).position = ctx.position ∧
    (PaperExecutor.execute cfg ActionType.BUY qty ctx).equity = ctx.equity := by
  simp only [PaperExecutor.execute] at hfail ⊢
  cases hb : PaperExecutor.buy cfg qty
      (PaperExecutor.applySlippage cfg ctx.currentPrice ActionType.BUY) ctx with
  | error e => simp [hb]
  | ok r =>
      have := buy_ok_success hb
      simp_all

/-- Witness for C5: a BUY of qty 1 at price 100 with only 50 cash fails the
sufficient-cash check, and the failed result echoes cash 50, the NONE
position and equity 50 of the pre-call context. -/
theorem buy_failure_leaves_state_unchanged_witness :
    (PaperExecutor.execute ⟨0, 0⟩ ActionType.BUY 1
        ⟨"S", 100, ⟨"S", 0, 0, Side.NONE⟩, 50, 50⟩).cash =
      (⟨"S", 100, ⟨"S", 0, 0, Side.NONE⟩, 50, 50⟩ : ExecutionContext).cash ∧
    (PaperExecutor.execute ⟨0, 0⟩ ActionType.BUY 1
        ⟨"S", 100, ⟨"S", 0, 0, Side.NONE⟩, 50, 50⟩).position =
      (⟨"S", 100, ⟨"S", 0, 0, Side.NONE⟩, 50, 50⟩ : ExecutionContext).position ∧
    (PaperExecutor.execute ⟨0, 0⟩ ActionType.BUY 1
        ⟨"S", 100, ⟨"S", 0, 0, Side.NONE⟩, 50, 50⟩).equity =
      (⟨"S", 100, ⟨"S", 0, 0, Side.NONE⟩, 50, 50⟩ : ExecutionContext).equity :=
  buy_failure_leaves_state_unchanged ⟨0, 0⟩ 1 ⟨"S", 100, ⟨"S", 0, 0, Side.NONE⟩, 50, 50⟩
    (by norm_num +decide [PaperExecutor.execute, PaperExecutor.buy,
      PaperExecutor.applySlippage])

/-- Every `Except.ok` result of `PaperExecutor.buy` satisfies the equity
identity against the pre-fill market price of the context. -/
theorem buy_ok_equity {cfg : PaperExecutorConfig} {qty price : ℚ}
    {ctx : ExecutionContext} {r : ExecutionResult}
    (h : PaperExecutor.buy cfg qty price ctx = Except.ok r) :
    r.equity = r.cash + PaperExecutor.calculatePositionValue r.position ctx.currentPrice := by
  simp only [PaperExecutor.buy] at h
  split_ifs at h <;> cases h <;> rfl

/-- Every `Except.ok` result of `PaperExecutor.sell` satisfies the equity
identity against the pre-fill market price of the context. -/
theorem sell_ok_equity {cfg : PaperExecutorConfig} {qty price : ℚ}
    {ctx : ExecutionContext} {r : ExecutionResult}
    (h : PaperExecutor.sell cfg qty price ctx = Except.ok r) :
    r.equity = r.cash + PaperExecutor.calculatePositionValue r.position ctx.currentPrice := by
  simp only [PaperExecutor.sell] at h
  split_ifs at h <;> cases h <;> rfl

/-- C6, counterexample.  Claimed: every successful ExecutionResult satisfies
equity = cash + unrealizedPnL(position, ctx.currentPrice).  HOLD echoes the
equity of the input context unchanged, so on a stale context the identity
fails: after BUY 1 at price 100 (slippage 0, fee 0) from cash 100 the runner
commits cash 0, LONG 1 @ 100, equity 0; on the next tick at price 110 the
snapshot is exactly the context below, a HOLD succeeds, and the result has
equity 0 while cash + unrealizedPnL = 0 + (110 - 100) * 1 = 10. -/
theorem hold_breaks_equity_identity :
    let ctx : ExecutionContext :=
      { symbol := "S", currentPrice := 110, position := ⟨"S", 1, 100, Side.LONG⟩,
        cash := 0, equity := 0 }
    let r := PaperExecutor.execute ⟨0, 0⟩ ActionType.HOLD 0 ctx
    r.success = true ∧
      r.equity ≠ r.cash +
        PaperExecutor.calculatePositionValue r.position ctx.currentPrice := by
  norm_num +decide [PaperExecutor.execute, PaperExecutor.calculatePositionValue]

/-- C6, amended.  Every successful BUY or SELL result of
`PaperExecutor.execute` satisfies equity = cash + unrealizedPnL(position,
ctx.currentPrice), the mark using the pre-fill market price, not the
slippage-adjusted fill price: the engine recomputes equity this way on every
filling branch, with no assumption on the input context.  A HOLD, by
contrast, echoes the cash, position and equity of the input context
unchanged, so its result satisfies the identity only when the input context
already does. -/
theorem equity_identity_on_fills (cfg : PaperExecutorConfig) (action : ActionType)
    (qty : ℚ) (ctx : ExecutionContext)
    (hact : action ≠ ActionType.HOLD)
    (hs : (PaperExecutor.execute cfg action qty ctx).success = true) :
    ((PaperExecutor.execute cfg action qty ctx).equity =
      (PaperExecutor.execute cfg action qty ctx).cash +
        PaperExecutor.calculatePositionValue
          (PaperExecutor.execute cfg action qty ctx).position ctx.currentPrice) ∧
    (PaperExecutor.execute cfg ActionType.HOLD qty ctx).cash = ctx.cash ∧
    (PaperExecutor.execute cfg ActionType.HOLD qty ctx).position = ctx.position ∧
    (PaperExecutor.execute cfg ActionType.HOLD qty ctx).equity = ctx.equity := by
  refine ⟨?_, rfl, rfl, rfl⟩
  cases action with
  | HOLD => exact absurd rfl hact
  | BUY =>
      simp only [PaperExecutor.execute] at hs ⊢
      cases hb : PaperExecutor.buy cfg qty
          (PaperExecutor.applySlippage cfg ctx.currentPrice ActionType.BUY) ctx with
      | error e => rw [hb] at hs; simp at hs
      | ok r => simpa using buy_ok_equity hb
  | SELL =>
      simp only [PaperExecutor.execute] at hs ⊢
      cases hb : PaperExecutor.sell cfg qty
          (PaperExecutor.applySlippage cfg ctx.currentPrice ActionType.SELL) ctx with
      | error e => rw [hb] at hs; simp at hs
      | ok r => simpa using sell_ok_equity hb

/-- Witness for C6 amended: a successful BUY of qty 1 at price 10 from NONE
with cash 100 satisfies the equity identity at the pre-fill mark, and a HOLD
on the same context echoes its cash, position and equity. -/
theorem equity_identity_on_fills_witness :
    ((PaperExecutor.execute ⟨0, 0⟩ ActionType.BUY 1
        ⟨"S", 10, ⟨"S", 0, 0, Side.NONE⟩, 100, 100⟩).equity =
      (PaperExecutor.execute ⟨0, 0⟩ ActionType.BUY 1
          ⟨"S", 10, ⟨"S", 0, 0, Side.NONE⟩, 100, 100⟩).cash +
        PaperExecutor.calculatePositionValue
          (PaperExecutor.execute ⟨0, 0⟩ ActionType.BUY 1
              ⟨"S", 10, ⟨"S", 0, 0, Side.NONE⟩, 100, 100⟩).position
          (⟨"S", 10, ⟨"S", 0, 0, Side.NONE⟩, 100, 100⟩ : ExecutionContext).currentPrice) ∧
    (PaperExecutor.execute ⟨0, 0⟩ ActionType.HOLD 1
        ⟨"S", 10, ⟨"S", 0, 0, Side.NONE⟩, 100, 100⟩).cash =
      (⟨"S", 10, ⟨"S", 0, 0, Side.NONE⟩, 100, 100⟩ : ExecutionContext).cash ∧
    (PaperExecutor.execute ⟨0, 0⟩ ActionType.HOLD 1
        ⟨"S", 10, ⟨"S", 0, 0, Side.NONE⟩, 100, 100⟩).position =
      (⟨"S", 10, ⟨"S", 0, 0, Side.NONE⟩, 100, 100⟩ : ExecutionContext).position ∧
    (PaperExecutor.execute ⟨0, 0⟩ ActionType.HOLD 1
        ⟨"S", 10, ⟨"S", 0, 0, Side.NONE⟩, 100, 100⟩).equity =
      (⟨"S", 10, ⟨"S", 0, 0, Side.NONE⟩, 100, 100⟩ : ExecutionContext).equity :=
  equity_identity_on_fills ⟨0, 0⟩ ActionType.BUY 1
    ⟨"S", 10, ⟨"S", 0, 0, Side.NONE⟩, 100, 100⟩ (by decide)
    (by norm_num +decide [PaperExecutor.execute, PaperExecutor.buy,
      PaperExecutor.applySlippage, PaperExecutor.calculatePositionValue])

/-- C2, amended.  A response that is unparseable, or whose action is missing
or not one of BUY/SELL/HOLD, is coerced to (HOLD, qty 0); a response with a
valid action keeps that action and its qty is clamped into [0, 1] by
max(0, min(1, qty)), a non-numeric qty counting as 0 — in particular every
decision the parser returns has qty in [0, 1], but an out-of-range qty on a
valid BUY/SELL is clamped, not converted to HOLD. -/
theorem parse_decision_clamps (raw : Option RawDecision) :
    (0 ≤ (LLMAgent.parseDecision raw).qty ∧ (LLMAgent.parseDecision raw).qty ≤ 1) ∧
    (raw = none →
      LLMAgent.parseDecision raw =
        { action := ActionType.HOLD, qty := 0, reason := "Failed to parse decision" }) ∧
    ∀ parsed, raw = some parsed →
      (parsed.action.bind LLMAgent.actionOfString = none →
        LLMAgent.parseDecision raw =
          { action := ActionType.HOLD, qty := 0, reason := "Failed to parse decision" }) ∧
      ∀ act, parsed.action.bind LLMAgent.actionOfString = some act →
        (LLMAgent.parseDecision raw).action = act ∧
        (LLMAgent.parseDecision raw).qty =
          max 0 (min 1 (match parsed.qty with | JsonQty.num q => q | JsonQty.nonNumber => 0)) := by
  rcases raw with _ | parsed
  · refine ⟨by simp [LLMAgent.parseDecision], fun _ => rfl, ?_⟩
    intro parsed h
    cases h
  · refine ⟨?_, ?_, ?_⟩
    · cases hb : parsed.action.bind LLMAgent.actionOfString with
      | none => simp [LLMAgent.parseDecision, hb]
      | some act =>
          simp only [LLMAgent.parseDecision, hb]
          exact ⟨le_max_left 0 _, max_le (by norm_num) (min_le_left _ _)⟩
    · intro h
      cases h
    · intro parsed2 h
      injection h with h
      subst h
      refine ⟨?_, ?_⟩
      · intro hb
        simp [LLMAgent.parseDecision, hb]
      · intro act hb
        simp [LLMAgent.parseDecision, hb]

/-- Witness for C2: a parsed response with action SELL and qty 3 keeps the
SELL action with qty clamped to max(0, min(1, 3)). -/
theorem parse_decision_clamps_witness :
    (LLMAgent.parseDecision (some ⟨some "SELL", JsonQty.num 3, none⟩)).action =
        ActionType.SELL ∧
    (LLMAgent.parseDecision (some ⟨some "SELL", JsonQty.num 3, none⟩)).qty =
        max 0 (min 1 3) := by
  have h := (parse_decision_clamps (some ⟨some "SELL", JsonQty.num 3, none⟩)).2.2
    ⟨some "SELL", JsonQty.num 3, none⟩ rfl
  exact h.2 ActionType.SELL rfl

/-- C3, amended.  A SELL whose qty equals the open LONG quantity fully closes
the position to NONE and succeeds, but the cash update credits the net close
proceeds — longQty * fillPrice minus the fee on longQty * fillPrice — rather
than the realized P&L; the realized P&L, (fillPrice - avgPrice) * longQty -
fee, appears only in the pnl field of the result.  (The claimed mirror of the
BUY-closing-SHORT cash rule, cash += P&L, does not hold.) -/
theorem sell_full_close_nets_proceeds (cfg : PaperExecutorConfig)
    (ctx : ExecutionContext) (qty : ℚ)
    (hside : ctx.position.side = Side.LONG) (hqty : qty = ctx.position.qty) :
    (PaperExecutor.execute cfg ActionType.SELL qty ctx).success = true ∧
    (PaperExecutor.execute cfg ActionType.SELL qty ctx).cash =
      ctx.cash + (ctx.position.qty * (ctx.currentPrice * (1 - cfg.slippage)) -
        ctx.position.qty * (ctx.currentPrice * (1 - cfg.slippage)) * cfg.takerFee) ∧
    (PaperExecutor.execute cfg ActionType.SELL qty ctx).position =
      { symbol := ctx.symbol, qty := 0, avgPrice := 0, side := Side.NONE } ∧
    (PaperExecutor.execute cfg ActionType.SELL qty ctx).pnl =
      some ((ctx.currentPrice * (1 - cfg.slippage) - ctx.position.avgPrice) *
          ctx.position.qty -
        ctx.position.qty * (ctx.currentPrice * (1 - cfg.slippage)) * cfg.takerFee) := by
  subst hqty
  simp [PaperExecutor.execute, PaperExecutor.sell, PaperExecutor.applySlippage,
    hside]

/-- Witness for C3 amended: closing LONG qty 1 at avg 100 by SELL 1 at price
110 (slippage 0, fee 0) succeeds, nets the full proceeds into cash and
reports the realized P&L in the pnl field. -/
theorem sell_full_close_nets_proceeds_witness :
    (PaperExecutor.execute ⟨0, 0⟩ ActionType.SELL 1
        ⟨"S", 110, ⟨"S", 1, 100, Side.LONG⟩, 0, 10⟩).success = true ∧
    (PaperExecutor.execute ⟨0, 0⟩ ActionType.SELL 1
        ⟨"S", 110, ⟨"S", 1, 100, Side.LONG⟩, 0, 10⟩).cash =
      (0 : ℚ) + (1 * (110 * (1 - 0)) - 1 * (110 * (1 - 0)) * 0) ∧
    (PaperExecutor.execute ⟨0, 0⟩ ActionType.SELL 1
        ⟨"S", 110, ⟨"S", 1, 100, Side.LONG⟩, 0, 10⟩).position =
      { symbol := "S", qty := 0, avgPrice := 0, side := Side.NONE } ∧
    (PaperExecutor.execute ⟨0, 0⟩ ActionType.SELL 1
        ⟨"S", 110, ⟨"S", 1, 100, Side.LONG⟩, 0, 10⟩).pnl =
      some ((110 * (1 - 0) - 100) * 1 - 1 * (110 * (1 - 0)) * 0) :=
  sell_full_close_nets_proceeds ⟨0, 0⟩ ⟨"S", 110, ⟨"S", 1, 100, Side.LONG⟩, 0, 10⟩ 1
    rfl rfl


/-- Every `Except.ok` result of `PaperExecutor.buy` from a position
satisfying the invariant, with strictly positive qty, has a position
satisfying the invariant. -/
theorem buy_ok_invariant {cfg : PaperExecutorConfig} {qty price : ℚ}
    {ctx : ExecutionContext} {r : ExecutionResult}
    (hinv : PosInvariant ctx.position) (hq : 0 < qty)
    (h : PaperExecutor.buy cfg qty price ctx = Except.ok r) :
    PosInvariant r.position := by
  obtain ⟨hN, hL, hS⟩ := hinv
  simp only [PaperExecutor.buy] at h
  split_ifs at h with h1 h2 h3 h4 h5 h6 <;> cases h <;>
    simp +decide [PosInvariant]
  · have := (hN h3).1
    linarith
  · rcases h1 with hs | hs
    · exact absurd hs h3
    · have := hL hs
      linarith
  · linarith
  · have habs : 0 < |ctx.position.qty| := by
      cases hsd : ctx.position.side with
      | NONE => exact absurd (Or.inl hsd) h1
      | LONG => exact absurd (Or.inr hsd) h1
      | SHORT => exact hS hsd
    intro h0
    push_neg at h4
    rcases abs_cases ctx.position.qty with ⟨he, hge⟩ | ⟨he, hlt⟩ <;>
      rw [he] at habs h4 <;> linarith

/-- Every `Except.ok` result of `PaperExecutor.sell` from a position
satisfying the invariant, with strictly positive qty, has a position
satisfying the invariant. -/
theorem sell_ok_invariant {cfg : PaperExecutorConfig} {qty price : ℚ}
    {ctx : ExecutionContext} {r : ExecutionResult}
    (hinv : PosInvariant ctx.position) (hq : 0 < qty)
    (h : PaperExecutor.sell cfg qty price ctx = Except.ok r) :
    PosInvariant r.position := by
  obtain ⟨hN, hL, hS⟩ := hinv
  simp only [PaperExecutor.sell] at h
  split_ifs at h with h1 h2 h3 h4 <;> cases h <;>
    simp +decide [PosInvariant]
  · intro h0
    have := abs_nonneg ctx.position.qty
    linarith
  · intro h0
    have := abs_nonneg ctx.position.qty
    linarith
  · intro h0
    linarith
  · push_neg at h3
    exact h3


/-- C4, amended.  For every context whose position satisfies the invariant
(NONE is zeroed; an open side has nonzero magnitude), every action and every
strictly positive qty, a successful `PaperExecutor.execute` returns a
position that satisfies the invariant.  (The original claim also admitted
qty = 0, which the counterexample refutes.) -/
theorem execute_preserves_invariant (cfg : PaperExecutorConfig) (action : ActionType)
    (qty : ℚ) (ctx : ExecutionContext)
    (hinv : PosInvariant ctx.position) (hq : 0 < qty)
    (hs : (PaperExecutor.execute cfg action qty ctx).success = true) :
    PosInvariant (PaperExecutor.execute cfg action qty ctx).position := by
  cases action with
  | HOLD => simpa [PaperExecutor.execute] using hinv
  | BUY =>
      simp only [PaperExecutor.execute] at hs ⊢
      cases hb : PaperExecutor.buy cfg qty
          (PaperExecutor.applySlippage cfg ctx.currentPrice ActionType.BUY) ctx with
      | error e => rw [hb] at hs; simp at hs
      | ok r => simpa using buy_ok_invariant ⟨hinv.1, hinv.2.1, hinv.2.2⟩ hq hb
  | SELL =>
      simp only [PaperExecutor.execute] at hs ⊢
      cases hb : PaperExecutor.sell cfg qty
          (PaperExecutor.applySlippage cfg ctx.currentPrice ActionType.SELL) ctx with
      | error e => rw [hb] at hs; simp at hs
      | ok r => simpa using sell_ok_invariant ⟨hinv.1, hinv.2.1, hinv.2.2⟩ hq hb

/-- Witness for C4 amended: a BUY of qty 1 at price 10 from a zeroed NONE
position with cash 100 succeeds and the resulting LONG position satisfies
the invariant. -/
theorem execute_preserves_invariant_witness :
    PosInvariant
      (PaperExecutor.execute ⟨0, 0⟩ ActionType.BUY 1
          ⟨"S", 10, ⟨"S", 0, 0, Side.NONE⟩, 100, 100⟩).position :=
  execute_preserves_invariant ⟨0, 0⟩ ActionType.BUY 1
    ⟨"S", 10, ⟨"S", 0, 0, Side.NONE⟩, 100, 100⟩ (by decide) (by decide)
    (by norm_num +decide [PaperExecutor.execute, PaperExecutor.buy,
      PaperExecutor.applySlippage, PaperExecutor.calculatePositionValue])


/-- C8.  Tick gating of the Scheduler: a tick arriving while `executing` is
set, or within `cooldownMs` of `lastExecutionTime`, is dropped with no state
change and starts no cycle; consequently, once a tick at time t1 starts a
cycle, a second tick at time t2 with t2 - t1 < cooldownMs is dropped — both
while the first cycle is still in flight (`executing` still set) and after it
completed (`completeCycle` cleared `executing` but `lastExecutionTime` = t1
keeps the cooldown closed) — so the two ticks produce exactly one cycle and
the decision of that cycle is applied at most once. -/
theorem tick_cooldown_mutual_exclusion (cooldownMs t1 t2 : ℤ) (s : AgentRunner.RunnerState)
    (r : ExecutionResult) (hgap : t2 - t1 < cooldownMs) :
    (∀ (now : ℤ) (st : AgentRunner.RunnerState),
        st.executing = true ∨ now - st.lastExecutionTime < cooldownMs →
        AgentRunner.deliverTick cooldownMs now st = (st, false)) ∧
    ((AgentRunner.deliverTick cooldownMs t1 s).2 = true →
      AgentRunner.deliverTick cooldownMs t2 (AgentRunner.deliverTick cooldownMs t1 s).1 =
        ((AgentRunner.deliverTick cooldownMs t1 s).1, false) ∧
      AgentRunner.deliverTick cooldownMs t2
          (AgentRunner.completeCycle r (AgentRunner.deliverTick cooldownMs t1 s).1) =
        (AgentRunner.completeCycle r (AgentRunner.deliverTick cooldownMs t1 s).1, false)) := by
  constructor
  · intro now st h
    rcases h with h | h
    · simp [AgentRunner.deliverTick, h]
    · simp only [AgentRunner.deliverTick, if_pos h]
      split_ifs <;> rfl
  · intro hstart
    unfold AgentRunner.deliverTick at hstart ⊢
    split_ifs at hstart with hx hc
    constructor
    · simp [hx, hc]
    · unfold AgentRunner.completeCycle
      split_ifs with hr <;> simp [hx, hc, hgap]

/-- Witness for C8: with cooldown 5000 ms, a first tick at t1 = 0 on an idle
state (last execution at -5000) starts a cycle, and a second tick at
t2 = 100 is dropped both during and after that cycle. -/
theorem tick_cooldown_mutual_exclusion_witness :
    (∀ (now : ℤ) (st : AgentRunner.RunnerState),
        st.executing = true ∨ now - st.lastExecutionTime < 5000 →
        AgentRunner.deliverTick 5000 now st = (st, false)) ∧
    ((AgentRunner.deliverTick 5000 0
          ⟨0, ⟨"S", 0, 0, Side.NONE⟩, 0, false, -5000⟩).2 = true →
      AgentRunner.deliverTick 5000 100
          (AgentRunner.deliverTick 5000 0 ⟨0, ⟨"S", 0, 0, Side.NONE⟩, 0, false, -5000⟩).1 =
        ((AgentRunner.deliverTick 5000 0 ⟨0, ⟨"S", 0, 0, Side.NONE⟩, 0, false, -5000⟩).1,
          false) ∧
      AgentRunner.deliverTick 5000 100
          (AgentRunner.completeCycle
            ⟨true, ActionType.HOLD, 0, 0, 0, ⟨"S", 0, 0, Side.NONE⟩, 0, none, none⟩
            (AgentRunner.deliverTick 5000 0
              ⟨0, ⟨"S", 0, 0, Side.NONE⟩, 0, false, -5000⟩).1) =
        (AgentRunner.completeCycle
            ⟨true, ActionType.HOLD, 0, 0, 0, ⟨"S", 0, 0, Side.NONE⟩, 0, none, none⟩
            (AgentRunner.deliverTick 5000 0
              ⟨0, ⟨"S", 0, 0, Side.NONE⟩, 0, false, -5000⟩).1,
          false)) :=
  tick_cooldown_mutual_exclusion 5000 0 100 ⟨0, ⟨"S", 0, 0, Side.NONE⟩, 0, false, -5000⟩
    ⟨true, ActionType.HOLD, 0, 0, 0, ⟨"S", 0, 0, Side.NONE⟩, 0, none, none⟩ (by decide)

/-- C9.  Order sizing of the Scheduler divides by the current price with no
zero guard: when the price oracle default 0 is returned (empty price map) and
the decision is BUY or SELL with fraction qty > 0 on positive equity, the call
into the executor receives the original action paired with an infinite
quantity — `runnerOrderArgs` passes the IEEE-754 quotient (q * e) / 0 = +inf
through unchanged. -/
theorem zero_price_sizing_is_infinite (d : AgentDecision) (e : ℚ) (sym : String)
    (hact : d.action ≠ ActionType.HOLD) (hq : 0 < d.qty) (he : 0 < e) :
    AgentRunner.runnerOrderArgs d e (PriceManager.getPrice [] sym) =
      (d.action, FVal.posInf) := by
  simp [AgentRunner.runnerOrderArgs, AgentRunner.absoluteQty, PriceManager.getPrice,
    jsDiv, hact, mul_pos hq he]

/-- Witness for C9: a BUY decision with fraction 1 on equity 1000 sized at
the price oracle default for an unknown symbol is passed to the executor as
(BUY, +inf). -/
theorem zero_price_sizing_is_infinite_witness :
    AgentRunner.runnerOrderArgs ⟨ActionType.BUY, 1, "momentum"⟩ 1000
        (PriceManager.getPrice [] "PERP_BTC_USDC") =
      (ActionType.BUY, FVal.posInf) :=
  zero_price_sizing_is_infinite ⟨ActionType.BUY, 1, "momentum"⟩ 1000 "PERP_BTC_USDC"
    (by decide) (by decide) (by decide)


/-- Auxiliary for C7: running a list of BUY fills from a LONG position of
quantity Q > 0 and average price A keeps the side LONG, adds the fill
quantities, and blends the average price volume-weightedly. -/
theorem runBuys_long_aux (cfg : PaperExecutorConfig) (fills : List (ℚ × ℚ)) :
    ∀ (ctx : ExecutionContext) (Q A : ℚ) (ctx2 : ExecutionContext),
      ctx.position.side = Side.LONG → ctx.position.qty = Q → ctx.position.avgPrice = A →
      0 < Q → (∀ pq ∈ fills, 0 < pq.2) →
      PaperExecutor.runBuys cfg ctx fills = Except.ok ctx2 →
      ctx2.position.side = Side.LONG ∧
      ctx2.position.qty = Q + (fills.map Prod.snd).sum ∧
      ctx2.position.avgPrice =
        (A * Q + (fills.map (fun pq => pq.1 * pq.2)).sum) /
          (Q + (fills.map Prod.snd).sum) := by
  induction fills with
  | nil =>
      intro ctx Q A ctx2 hside hq hA hQ hpos hrun
      simp only [PaperExecutor.runBuys] at hrun
      cases hrun
      have hQne : Q ≠ 0 := ne_of_gt hQ
      refine ⟨hside, by simp [hq], ?_⟩
      simp only [List.map_nil, List.sum_nil, add_zero]
      rw [hA, mul_div_assoc, div_self hQne, mul_one]
  | cons head tail ih =>
      obtain ⟨p, q⟩ := head
      intro ctx Q A ctx2 hside hq hA hQ hpos hrun
      have hqpos : 0 < q := hpos (p, q) (List.mem_cons_self _ _)
      have htail : ∀ pq ∈ tail, 0 < pq.2 := fun pq hm => hpos pq (List.mem_cons_of_mem _ hm)
      simp only [PaperExecutor.runBuys, PaperExecutor.buy, hside] at hrun
      simp +decide only [if_true, if_false] at hrun
      split_ifs at hrun with hc
      have hres := ih _ (Q + q) ((A * Q + p * q) / (Q + q)) ctx2 rfl
        (by simp [hq]) (by simp [hq, hA]) (by linarith) htail hrun
      obtain ⟨hL, hqty, havg⟩ := hres
      have hQq : Q + q ≠ 0 := ne_of_gt (by linarith)
      simp only [List.map_cons, List.sum_cons]
      refine ⟨hL, ?_, ?_⟩
      · rw [hqty]
        ring
      · rw [havg, div_mul_cancel₀ _ hQq]
        ring


/-- C7.  A nonempty sequence of successful BUY executions from a NONE
position, the i-th filling quantity qi > 0 at fill price pi, yields a LONG
position of quantity Σqi whose average price is the volume-weighted average
Σ(pi qi) / Σqi. -/
theorem accumulating_buys_vwap (cfg : PaperExecutorConfig) (ctx : ExecutionContext)
    (fills : List (ℚ × ℚ)) (ctx2 : ExecutionContext)
    (hside : ctx.position.side = Side.NONE) (hq0 : ctx.position.qty = 0)
    (hpos : ∀ pq ∈ fills, 0 < pq.2) (hne : fills ≠ [])
    (hrun : PaperExecutor.runBuys cfg ctx fills = Except.ok ctx2) :
    ctx2.position.side = Side.LONG ∧
    ctx2.position.qty = (fills.map Prod.snd).sum ∧
    ctx2.position.avgPrice =
      (fills.map (fun pq => pq.1 * pq.2)).sum / (fills.map Prod.snd).sum := by
  cases fills with
  | nil => exact absurd rfl hne
  | cons head tail =>
      obtain ⟨p, q⟩ := head
      have hqpos : 0 < q := hpos (p, q) (List.mem_cons_self _ _)
      have htail : ∀ pq ∈ tail, 0 < pq.2 := fun pq hm => hpos pq (List.mem_cons_of_mem _ hm)
      simp only [PaperExecutor.runBuys, PaperExecutor.buy, hside] at hrun
      simp +decide only [if_true, if_false] at hrun
      split_ifs at hrun with hc
      have hres := runBuys_long_aux cfg tail _ q p ctx2 rfl (by simp [hq0]) (by simp)
        hqpos htail hrun
      obtain ⟨hL, hqty, havg⟩ := hres
      simp only [List.map_cons, List.sum_cons]
      exact ⟨hL, hqty, by rw [havg]⟩

/-- Witness for C7: from NONE with cash 1000 (slippage 0, fee 0), buying
qty 1 at fill price 10 and then qty 1 at fill price 20 succeeds and yields a
LONG position of qty 2 at the volume-weighted average price 15. -/
theorem accumulating_buys_vwap_witness :
    (⟨"S", 10, ⟨"S", 2, 15, Side.LONG⟩, 970, 960⟩ : ExecutionContext).position.side =
        Side.LONG ∧
    (⟨"S", 10, ⟨"S", 2, 15, Side.LONG⟩, 970, 960⟩ : ExecutionContext).position.qty =
        (([((10 : ℚ), (1 : ℚ)), (20, 1)]).map Prod.snd).sum ∧
    (⟨"S", 10, ⟨"S", 2, 15, Side.LONG⟩, 970, 960⟩ : ExecutionContext).position.avgPrice =
        (([((10 : ℚ), (1 : ℚ)), (20, 1)]).map (fun pq => pq.1 * pq.2)).sum /
          (([((10 : ℚ), (1 : ℚ)), (20, 1)]).map Prod.snd).sum :=
  accumulating_buys_vwap ⟨0, 0⟩ ⟨"S", 10, ⟨"S", 0, 0, Side.NONE⟩, 1000, 1000⟩
    [(10, 1), (20, 1)] ⟨"S", 10, ⟨"S", 2, 15, Side.LONG⟩, 970, 960⟩ rfl rfl
    (by decide) (by decide)
    (by norm_num +decide [PaperExecutor.runBuys, PaperExecutor.buy,
      PaperExecutor.calculatePositionValue])

end Aadenman
